import Mathlib

/-!
Verification of the Archon MCP control plane against its specification.

The definitions below are a shallow embedding of the Python sources:

* src/python/src/server/mcp_kubernetes/protocols/adapters.py
  (MCPMessage, to_jsonrpc / from_jsonrpc, ProtocolAdapter message handling)
* src/python/src/server/mcp_kubernetes/stdio/bridge.py
  (MCPStdioBridge.send_request response-wait loop)
* src/python/src/server/mcp_kubernetes/sidecar/pod_manager.py
  (PodManager.get_pod_status / is_pod_ready)
* src/python/src/sidecar/mcp_kubernetes/sidecar/manager.py
  (MCPSidecarManager start/stop/refresh; its imports .config and
  .pod_manager resolve to the identical modules kept under
  src/python/src/server/mcp_kubernetes/sidecar/)
* src/python/src/server/api_routes/mcp_api.py
  (DockerManager start/stop throttling and _add_log)

Python I/O effects (Kubernetes API calls, Docker API calls, clocks) are
modelled as explicit environment records consumed by the state-transition
functions; pure Python values are modelled by Lean data.  Machine floats
from time.time() are modelled as rationals, int(time.time()) as integers.
-/

/-- A JSON value, as produced by json.loads on the wire; Python dicts of
JSON values (params, error objects) appear as association lists in
insertion order. -/
inductive Json where
  | null : Json
  | jbool (b : Bool) : Json
  | num (n : Int) : Json
  | str (s : String) : Json
  | arr (elems : List Json) : Json
  | obj (fields : List (String × Json)) : Json

/-- MessageType from adapters.py: the kinds REQUEST, RESPONSE, NOTIFICATION,
ERROR of an MCPMessage. -/
inductive MessageType where
  | request
  | response
  | notificationKind
  | errorKind
  deriving DecidableEq, Repr

/-- MCPMessage from adapters.py.  The timestamp (a datetime defaulted to
utcnow) and protocol tag are omitted: every claim about these messages is
stated modulo the timestamp and protocol fields, so equality of this
structure is exactly the equality the specification asks about.  A Python
value of None is Option.none; a params/error dict is a list of key-value
pairs in insertion order. -/
structure MCPMessage where
  id : String
  type : MessageType
  method : Option String := none
  params : Option (List (String × Json)) := none
  result : Option Json := none
  error : Option (List (String × Json)) := none

/-- Python truthiness of an optional dict: None and the empty dict are
falsy, any non-empty dict is truthy. -/
def truthyObj : Option (List (String × Json)) → Bool
  | none => false
  | some kvs => !kvs.isEmpty

/-- The wire-level JSON-RPC dict built by to_jsonrpc and consumed by
from_jsonrpc.  A field of none means the key is absent from the dict.
The method key, when present, can hold Python None (to_jsonrpc writes
self.method unconditionally for requests), hence Option (Option String);
likewise the result key can hold None. -/
structure JsonRpcDict where
  jsonrpc : String := "2.0"
  id : Option String := none
  method : Option (Option String) := none
  params : Option (List (String × Json)) := none
  result : Option (Option Json) := none
  error : Option (List (String × Json)) := none

/-- MCPMessage.to_jsonrpc from adapters.py.  Requests write method (always)
and params (only when truthy); responses write the error dict when it is
truthy and otherwise the result; notifications write method and truthy
params and delete the id key; a message of kind ERROR matches no branch and
leaves only the jsonrpc and id keys. -/
def MCPMessage.to_jsonrpc (m : MCPMessage) : JsonRpcDict :=
  match m.type with
  | .request =>
      { id := some m.id
        method := some m.method
        params := if truthyObj m.params then m.params else none }
  | .response =>
      if truthyObj m.error then
        { id := some m.id, error := m.error }
      else
        { id := some m.id, result := some m.result }
  | .notificationKind =>
      { id := none
        method := some m.method
        params := if truthyObj m.params then m.params else none }
  | .errorKind => { id := some m.id }

/-- MCPMessage.from_jsonrpc from adapters.py.  The fresh argument stands for
the str(uuid.uuid4()) drawn when the dict has no id key.  A dict with a
method key parses as a request (with id) or a notification (without);
anything else parses as a response taking result and error via dict.get.
from_jsonrpc also tags protocol=STDIO and stamps a fresh timestamp, the two
fields every round-trip claim is stated modulo of. -/
def MCPMessage.from_jsonrpc (fresh : String) (d : JsonRpcDict) : MCPMessage :=
  let msgId := d.id.getD fresh
  match d.method with
  | some m =>
      { id := msgId
        type := if d.id.isSome then .request else .notificationKind
        method := m
        params := d.params }
  | none =>
      { id := msgId
        type := .response
        result := d.result.getD none
        error := d.error }

/-- A bounded deque append, as collections.deque with maxlen: the new entry
is appended on the right and the oldest entries are dropped from the left
once the length exceeds the capacity. -/
def boundedAppend (cap : Nat) (q : List α) (x : α) : List α :=
  let q := q ++ [x]
  if q.length > cap then q.drop (q.length - cap) else q

/-- The value a Python MCP method handler produces: a normal return value
(possibly None) or a raised exception carrying str(e). -/
def Handler : Type := List (String × Json) → Except String (Option Json)

/-- The observable way an asyncio.Future installed by send_request is
completed by _handle_response: set_result with the result value, or
set_exception with the RPC error dict. -/
inductive RpcOutcome where
  | ok (result : Option Json)
  | exn (rpcError : List (String × Json))

/-- State of a ProtocolAdapter from adapters.py.  pending holds the ids of
pending_requests whose futures are not yet completed; resolved records, in
order, each future completion performed by _handle_response; sent records
every message passed to send_message; queue is the bounded message_queue
(deque maxlen 1000). -/
structure AdapterState where
  handlers : List (String × Handler) := []
  pending : List String := []
  resolved : List (String × RpcOutcome) := []
  queue : List MCPMessage := []
  sent : List MCPMessage := []

/-- Python membership test method in self.message_handlers followed by the
dict lookup; a method of None is never a dict key. -/
def lookupHandler (method : Option String) (handlers : List (String × Handler)) : Option Handler :=
  match method with
  | none => none
  | some m => handlers.lookup m

/-- Python str() of an optional string, as interpolated by an f-string:
None prints as the text None. -/
def pyStrOpt : Option String → String
  | none => "None"
  | some s => s

/-- Appending a message to the sent record models a call to the abstract
send_message. -/
def AdapterState.send (st : AdapterState) (m : MCPMessage) : AdapterState :=
  { st with sent := st.sent ++ [m] }

/-- ProtocolAdapter._handle_request from adapters.py: dispatch to the
registered handler and send a response carrying its return value, an
internal-error object with code -32603 if the handler raised, or a
method-not-found error object with code -32601 if no handler is
registered.  The handler receives message.params or the empty dict. -/
def AdapterState.handleRequest (st : AdapterState) (m : MCPMessage) : AdapterState :=
  match lookupHandler m.method st.handlers with
  | some h =>
      match h (m.params.getD []) with
      | .ok r =>
          st.send { id := m.id, type := .response, result := r }
      | .error e =>
          st.send { id := m.id, type := .response
                    error := some [("code", Json.num (-32603)),
                                   ("message", Json.str ("Internal error: " ++ e))] }
  | none =>
      st.send { id := m.id, type := .response
                error := some [("code", Json.num (-32601)),
                               ("message", Json.str ("Method not found: " ++ pyStrOpt m.method))] }

/-- The completion _handle_response applies to a popped future: the error
dict when it is truthy, else the result. -/
def outcomeOf (m : MCPMessage) : RpcOutcome :=
  if truthyObj m.error then .exn (m.error.getD []) else .ok m.result

/-- ProtocolAdapter._handle_response from adapters.py:
pending_requests.pop(id, None); when a pending future exists it is
completed (set_exception on a truthy error, set_result otherwise) and
recorded in resolved; an id matching no pending request changes nothing.
In this sequential model a future still present in pending_requests is
never already done, so the not-done guard of the source is vacuous. -/
def AdapterState.handleResponse (st : AdapterState) (m : MCPMessage) : AdapterState :=
  if st.pending.contains m.id then
    { st with pending := st.pending.erase m.id
              resolved := st.resolved ++ [(m.id, outcomeOf m)] }
  else st

/-- ProtocolAdapter._handle_notification from adapters.py: fire the
registered handler and discard its outcome; exceptions are logged and
swallowed, and nothing is sent back. -/
def AdapterState.handleNotify (st : AdapterState) (m : MCPMessage) : AdapterState :=
  match lookupHandler m.method st.handlers with
  | some h => let _ := h (m.params.getD []); st
  | none => st

/-- ProtocolAdapter.handle_incoming_message from adapters.py: append to the
bounded message_queue, then dispatch on the message type; a message of kind
ERROR matches no branch. -/
def AdapterState.handleIncomingMessage (st : AdapterState) (m : MCPMessage) : AdapterState :=
  let st := { st with queue := boundedAppend 1000 st.queue m }
  match m.type with
  | .request => st.handleRequest m
  | .response => st.handleResponse m
  | .notificationKind => st.handleNotify m
  | .errorKind => st

/-- Python dict key installation d[k] = v restricted to the key set: the
key is appended when absent; an already-present key keeps its position
(its future would be overwritten, which the uuid4 freshness contract rules
out). -/
def pendingInsert (l : List String) (id : String) : List String :=
  if l.contains id then l else l ++ [id]

/-- The state-visible half of ProtocolAdapter.send_request from
adapters.py: draw a fresh uuid, install a pending future under it, and send
the request message carrying it. -/
def AdapterState.sendRequestStep (st : AdapterState) (uuid : String) (method : String)
    (params : Option (List (String × Json))) : AdapterState :=
  let st := { st with pending := pendingInsert st.pending uuid }
  st.send { id := uuid, type := .request, method := some method, params := params }

/-- Delivering a sequence of incoming messages to the adapter, in arrival
order. -/
def AdapterState.deliverAll (st : AdapterState) (ms : List MCPMessage) : AdapterState :=
  ms.foldl AdapterState.handleIncomingMessage st

/-- MCPStdioBridge.send_request response-wait loop from bridge.py: the call
repeatedly dequeues parsed frames from the shared stdout queue of the
connection (a timed-out receive yields none) and returns the first truthy
dict whose id key equals its own request id, dropping every other frame;
exhausting the sequence models the overall timeout.  A wire frame is a raw
parsed JSON dict. -/
def bridgeAwaitResponse (requestId : String) : List (Option (List (String × Json))) → Option (List (String × Json))
  | [] => none
  | none :: rest => bridgeAwaitResponse requestId rest
  | some d :: rest =>
      if !d.isEmpty && (match d.lookup "id" with
                        | some (Json.str s) => s == requestId
                        | _ => false) then
        some d
      else bridgeAwaitResponse requestId rest

/-- A pod condition entry from the Kubernetes pod status: the type and
status fields read by is_pod_ready. -/
structure PodCondition where
  condType : String
  condStatus : String

/-- A containerStatuses entry: the state.waiting sub-dict, whose Python
truthiness distinguishes a missing or empty dict from a populated one, and
whose reason key get_pod_status reads with default Unknown. -/
structure ContainerStatusEntry where
  waiting : Option (List (String × String))

/-- The observed fields of a pod dict returned by the Kubernetes list-pods
API: metadata.name plus the status sub-dict pieces read by pod_manager.py
(phase via status.get, conditions, containerStatuses). -/
structure Pod where
  name : String
  phase : Option String
  conditions : List PodCondition := []
  containerStatuses : List ContainerStatusEntry := []

/-- PodManager.is_pod_ready from pod_manager.py: a pod is ready when its
phase is Running and the first condition of type Ready has status True. -/
def isPodReady (p : Pod) : Bool :=
  if p.phase != some "Running" then false
  else
    match p.conditions.find? (fun c => c.condType == "Ready") with
    | some c => c.condStatus == "True"
    | none => false

/-- PodManager.get_pod_status from pod_manager.py: phase defaults to
Unknown; Pending reports the first truthy container waiting state as
Pending (reason); Running splits on readiness into Running or Starting;
Succeeded becomes Completed; Failed stays Failed; any other phase is
returned verbatim. -/
def getPodStatus (p : Pod) : String :=
  let phase := p.phase.getD "Unknown"
  if phase == "Pending" then
    match p.containerStatuses.find? (fun cs => match cs.waiting with
                                               | some w => !w.isEmpty
                                               | none => false) with
    | some cs => "Pending (" ++ ((cs.waiting.getD []).lookup "reason").getD "Unknown" ++ ")"
    | none => "Pending"
  else if phase == "Running" then
    if isPodReady p then "Running" else "Starting"
  else if phase == "Succeeded" then "Completed"
  else if phase == "Failed" then "Failed"
  else phase

/-- ServerConfig from sidecar config.py, before pydantic validation: the
raw field values a caller supplies.  args and env keep their Python
ordering. -/
structure SCfg where
  server_type : String := "archon"
  name : Option String := none
  package : Option String := none
  command : Option String := none
  args : List String := []
  env : List (String × String) := []
  transport : String := "sse"
  image : Option String := none
  port : Option Nat := none
  timeout : Nat := 300
  deriving DecidableEq, Repr

/-- Python truthiness of an optional string: None and the empty string are
falsy. -/
def truthyStr : Option String → Bool
  | none => false
  | some s => !s.isEmpty

/-- Python truthiness of an optional port number: None and 0 are falsy. -/
def truthyPort : Option Nat → Bool
  | none => false
  | some n => n != 0

/-- The Python expression a or b on an optional string: b when a is falsy. -/
def pyOrStr (a : Option String) (b : String) : String :=
  match a with
  | some s => if s.isEmpty then b else s
  | none => b

/-- The pydantic validators of ServerConfig from sidecar config.py, run in
field order (server_type, package, command, transport, port): membership of
server_type and transport in their valid sets, package required for npx/uv,
command required for docker, and the port default (8051 for archon, 8080
otherwise) filled in for sse/http transports with a falsy port.  On failure
the message is the core text of the first failing validator (pydantic
wraps it in ValidationError boilerplate that no claim inspects). -/
def validateConfig (c : SCfg) : Except String SCfg :=
  if !(["archon", "npx", "uv", "python", "docker"].contains c.server_type) then
    .error "server_type must be one of: archon, npx, uv, python, docker"
  else if (c.server_type == "npx" || c.server_type == "uv") && !truthyStr c.package then
    .error ("package is required for " ++ c.server_type ++ " servers")
  else if c.server_type == "docker" && !truthyStr c.command then
    .error "command is required for docker servers"
  else if !(["stdio", "sse", "http", "websocket"].contains c.transport) then
    .error "transport must be one of: stdio, sse, http, websocket"
  else
    .ok { c with port :=
            if (c.transport == "sse" || c.transport == "http") && !truthyPort c.port then
              (if c.server_type == "archon" then some 8051 else some 8080)
            else c.port }

/-- The SidecarConfig fields the manager reads: namespace, the pod name
stem (pod_name_prefix, default mcp), and max_concurrent_servers
(default 10). -/
structure SidecarCfgM where
  namespace_ : String := "archon"
  podNameStem : String := "mcp"
  maxConcurrentServers : Nat := 10
  deriving DecidableEq, Repr

/-- The per-server tracking dict the sidecar manager stores in
running_servers.  The ready key is absent (none) until the first
reconciliation writes it; config holds the model_dump of the validated
ServerConfig. -/
structure ServerInfo where
  server_id : String
  pod_name : String
  server_type : String
  name : Option String
  transport : String
  status : String
  ready : Option Bool := none
  start_time : Rat
  config : SCfg

/-- MCPResponse from sidecar config.py; data is the optional payload dict
and timestamp the utcnow isoformat string filled by the default factory. -/
structure MCPResponse where
  success : Bool
  message : String
  status : Option String := none
  data : Option (List (String × Json)) := none
  server_id : Option String := none
  timestamp : String := ""

/-- MCPSidecarManager state: the global status and start_time kept for the
main archon server, the bounded log deque of (timestamp, level, message)
entries, and the running_servers dict in insertion order. -/
structure SidecarState where
  status : String := "stopped"
  startTime : Option Rat := none
  logs : List (String × String × String) := []
  runningServers : List (String × ServerInfo) := []

/-- A failure of an authenticated Kubernetes API request: an HTTP status
error (httpx.HTTPStatusError) or any other raised exception with its
message. -/
inductive KubeErr where
  | httpStatus (code : Int)
  | other (msg : String)

/-- The I/O observations one sidecar-manager call makes: the truncated
unix clock at server-id generation (line 127) and pod-name generation
(line 152), the float clock stored in tracking records, the utcnow string
used for response timestamps and log entries, the outcome of the pod POST
(Kubernetes error or the created pod metadata.name), the per-pod outcome
of DELETE calls, and the label-selected pod list a refresh observes (an
API failure in _get_pods already yields the empty list in the source). -/
structure SidecarEnv where
  nowId : Int := 0
  nowPod : Int := 0
  nowStart : Rat := 0
  utcNow : String := ""
  createPod : Except KubeErr String := .ok ""
  deletePod : String → Except String Unit := fun _ => .ok ()
  pods : List Pod := []

/-- MCPSidecarManager._add_log: append a (utcnow-isoformat, level, message)
entry to the bounded log deque (maxlen 1000). -/
def sidecarAddLog (ts : String) (level msg : String) (st : SidecarState) : SidecarState :=
  { st with logs := boundedAppend 1000 st.logs (ts, level, msg) }

/-- Python dict assignment d[k] = v on an insertion-ordered dict: replace
in place when the key exists, append otherwise. -/
def dictInsert (k : String) (v : α) : List (String × α) → List (String × α)
  | [] => [(k, v)]
  | (k', v') :: rest => if k' == k then (k, v) :: rest else (k', v') :: dictInsert k v rest

/-- Python del d[k] on an insertion-ordered dict. -/
def dictErase (k : String) (l : List (String × α)) : List (String × α) :=
  l.filter (fun p => p.1 != k)

/-- The tracked server record sidecarStartTrack inserts, named so theorems
can speak about the inserted entry. -/
def trackedInfo (env : SidecarEnv) (cfg : SCfg) (serverId returnedPodName : String) : ServerInfo :=
  { server_id := serverId
    pod_name := returnedPodName
    server_type := cfg.server_type
    name := cfg.name
    transport := cfg.transport
    status := "starting"
    start_time := env.nowStart
    config := cfg }

/-- The duplicate-instance predicate of start_server line 141: same
server_type and same name as the candidate config. -/
def sameTypeAndName (cfg : SCfg) (s : ServerInfo) : Bool :=
  s.server_type == cfg.server_type && s.name == cfg.name

/-- The success continuation of MCPSidecarManager.start_server once the
pod POST returned a manifest: track the new server under its id, update
the global status for an archon server, log, and answer with the new
server_id. -/
def sidecarStartTrack (env : SidecarEnv) (st : SidecarState) (cfg : SCfg)
    (serverId returnedPodName : String) : SidecarState × MCPResponse :=
  let info : ServerInfo := trackedInfo env cfg serverId returnedPodName
  let st := { st with runningServers := dictInsert serverId info st.runningServers }
  let st := if cfg.server_type == "archon" then
              { st with status := "starting", startTime := some env.nowStart }
            else st
  let st := sidecarAddLog env.utcNow "INFO"
              ("Created " ++ cfg.server_type ++ " MCP pod: " ++ returnedPodName) st
  (st, { success := true
         status := some "starting"
         message := cfg.server_type ++ " MCP pod " ++ returnedPodName ++ " created successfully"
         server_id := some serverId
         data := some [("pod_name", Json.str returnedPodName),
                       ("server_type", Json.str cfg.server_type),
                       ("transport", Json.str cfg.transport)]
         timestamp := env.utcNow })

/-- The server id generated at line 127 of sidecar manager.py:
server_type-(name or default)-int(time.time()). -/
def serverIdString (cfg : SCfg) (nowId : Int) : String :=
  cfg.server_type ++ "-" ++ pyOrStr cfg.name "default" ++ "-" ++ toString nowId

/-- MCPSidecarManager.start_server from sidecar manager.py: default the
config, revalidate it, generate the server id as
server_type-(name or default)-int(time.time()), reject at the concurrent
limit, reject a duplicate (server_type, name) when the name is truthy,
then POST the pod manifest (the generated pod name
prefix-(name or server_type)-int(time.time()) travels inside the manifest;
the name the API returns arrives in env.createPod); an API failure is
logged and answered as an error without touching running_servers, and a
success is tracked by sidecarStartTrack. -/
def sidecarStartServer (cfgS : SidecarCfgM) (env : SidecarEnv) (st : SidecarState)
    (serverConfig : Option SCfg) : SidecarState × MCPResponse :=
  match validateConfig (serverConfig.getD {}) with
  | .error e =>
      (st, { success := false, status := some "error"
             message := "Invalid server configuration: " ++ e
             timestamp := env.utcNow })
  | .ok cfg =>
      if st.runningServers.length ≥ cfgS.maxConcurrentServers then
        (st, { success := false, status := some "error"
               message := "Maximum concurrent servers (" ++ toString cfgS.maxConcurrentServers ++ ") reached"
               timestamp := env.utcNow })
      else
        match (if truthyStr cfg.name then
                 (st.runningServers.map Prod.snd).find? (sameTypeAndName cfg)
               else none) with
        | some ex =>
            (st, { success := false, status := some "running"
                   message := "Server " ++ cfg.server_type ++ ":" ++ pyStrOpt cfg.name ++ " is already running"
                   server_id := some ex.server_id
                   timestamp := env.utcNow })
        | none =>
            match env.createPod with
            | .error (.httpStatus code) =>
                (sidecarAddLog env.utcNow "ERROR" ("Kubernetes API error: " ++ toString code) st,
                 { success := false, status := some "error"
                   message := "Kubernetes API error: " ++ toString code
                   timestamp := env.utcNow })
            | .error (.other m) =>
                (sidecarAddLog env.utcNow "ERROR" ("Failed to start MCP pod: " ++ m) st,
                 { success := false, status := some "error"
                   message := "Failed to start MCP pod: " ++ m
                   timestamp := env.utcNow })
            | .ok returnedPodName =>
                sidecarStartTrack env st cfg (serverIdString cfg env.nowId) returnedPodName

/-- MCPSidecarManager.stop_server with a server_id: unknown ids answer
not_found; a DELETE failure is caught by the outer handler and leaves the
tracking dict unchanged; a successful DELETE drops the instance, resets
the global status for an archon server, and logs. -/
def sidecarStopOne (env : SidecarEnv) (st : SidecarState) (serverId : String) :
    SidecarState × MCPResponse :=
  match st.runningServers.lookup serverId with
  | none =>
      (st, { success := false, status := some "not_found"
             message := "Server " ++ serverId ++ " not found"
             timestamp := env.utcNow })
  | some info =>
      match env.deletePod info.pod_name with
      | .error e =>
          let msg := "Failed to stop servers: " ++ e
          (sidecarAddLog env.utcNow "ERROR" msg st,
           { success := false, status := some "error", message := msg
             timestamp := env.utcNow })
      | .ok _ =>
          let st := { st with runningServers := dictErase serverId st.runningServers }
          let st := if info.server_type == "archon" then
                      { st with status := "stopped", startTime := none }
                    else st
          let st := sidecarAddLog env.utcNow "INFO"
                      ("Deleted " ++ info.server_type ++ " pod: " ++ info.pod_name) st
          (st, { success := true, status := some "stopped"
                 message := "Server " ++ serverId ++ " stopped successfully"
                 server_id := some serverId
                 timestamp := env.utcNow })

/-- MCPSidecarManager.stop_server with no id: delete every tracked pod,
logging each success and collecting an error string per failure, then
clear the whole tracking dict and reset the global status; with failures
the answer is status partial and success iff anything stopped. -/
def sidecarStopAll (env : SidecarEnv) (st : SidecarState) : SidecarState × MCPResponse :=
  let outcomes := st.runningServers.map
    (fun p => (p.1, p.2, env.deletePod p.2.pod_name))
  let stoppedCount := (outcomes.filter (fun o => o.2.2.isOk)).length
  let errors := outcomes.filterMap
    (fun o => match o.2.2 with
              | .error e => some ("Failed to stop " ++ o.1 ++ ": " ++ e)
              | .ok _ => none)
  let st := outcomes.foldl
    (fun acc o => match o.2.2 with
                  | .ok _ => sidecarAddLog env.utcNow "INFO"
                               ("Deleted " ++ o.2.1.server_type ++ " pod: " ++ o.2.1.pod_name) acc
                  | .error _ => acc) st
  let st := { st with runningServers := [], status := "stopped", startTime := none }
  if !errors.isEmpty then
    (st, { success := decide (stoppedCount > 0), status := some "partial"
           message := "Stopped " ++ toString stoppedCount ++ " servers with "
                        ++ toString errors.length ++ " errors: " ++ String.intercalate "; " errors
           timestamp := env.utcNow })
  else
    (st, { success := true, status := some "stopped"
           message := "All " ++ toString stoppedCount ++ " servers stopped successfully"
           timestamp := env.utcNow })

/-- The per-instance update of MCPSidecarManager._refresh_server_statuses:
the first listed pod whose metadata.name matches the tracked pod_name
yields status get_pod_status and ready is_pod_ready; an absent pod marks
the instance not_found and not ready. -/
def refreshInfo (pods : List Pod) (info : ServerInfo) : ServerInfo :=
  match pods.find? (fun p => p.name == info.pod_name) with
  | some p => { info with status := getPodStatus p, ready := some (isPodReady p) }
  | none => { info with status := "not_found", ready := some false }

/-- MCPSidecarManager._refresh_server_statuses over the observed pod list:
every tracked instance is updated in place; membership of the tracking
dict never changes. -/
def sidecarRefresh (env : SidecarEnv) (st : SidecarState) : SidecarState :=
  { st with runningServers := st.runningServers.map (fun p => (p.1, refreshInfo env.pods p.2)) }

/-- One externally triggered sidecar-manager operation: a start (with its
observed environment and optional config), a stop (of one id or of all),
or a status/list query, which runs the reconciliation refresh. -/
inductive SidecarOp where
  | start (env : SidecarEnv) (serverConfig : Option SCfg)
  | stop (env : SidecarEnv) (serverId : Option String)
  | statusQuery (env : SidecarEnv)

/-- The state transition of one sidecar operation. -/
def sidecarStep (cfgS : SidecarCfgM) (st : SidecarState) : SidecarOp → SidecarState
  | .start env c => (sidecarStartServer cfgS env st c).1
  | .stop env (some sid) => (sidecarStopOne env st sid).1
  | .stop env none => (sidecarStopAll env st).1
  | .statusQuery env => sidecarRefresh env st

/-- An execution history of the sidecar manager from a given state. -/
def sidecarRun (cfgS : SidecarCfgM) (st : SidecarState) (ops : List SidecarOp) : SidecarState :=
  ops.foldl (sidecarStep cfgS) st

/-- The state of a freshly constructed MCPSidecarManager: status stopped,
no start time, no logs, no tracked servers. -/
def initSidecarState : SidecarState := {}

/-- A raised Python exception that the embedding tracks by kind. -/
inductive PyExc where
  | attributeError
  deriving DecidableEq, Repr

/-- Modelled from the Python standard library: the attribute names of the
datetime CLASS bound by the statement from datetime import datetime at the
top of mcp_api.py.  The timezone type is a module-level name of the
datetime module and is not among the class attributes, so the attribute
access datetime.timezone on this binding raises AttributeError. -/
def datetimeClassAttrs : List String :=
  ["min", "max", "resolution", "today", "now", "utcnow", "fromtimestamp",
   "utcfromtimestamp", "fromordinal", "combine", "fromisoformat", "strptime",
   "year", "month", "day", "hour", "minute", "second", "microsecond",
   "tzinfo", "fold", "date", "time", "timetz", "replace", "astimezone",
   "utcoffset", "dst", "tzname", "timetuple", "utctimetuple", "toordinal",
   "timestamp", "weekday", "isoweekday", "isocalendar", "isoformat",
   "ctime", "strftime"]

/-- Python attribute lookup on the imported datetime class: AttributeError
when the name is not a class attribute.  The unit payload suffices because
the only lookup the embedded code performs (timezone) fails. -/
def pyGetattrDatetime (attr : String) : Except PyExc Unit :=
  if datetimeClassAttrs.contains attr then .ok () else .error .attributeError

/-- DockerManager log entries: (timestamp, level, message). -/
def DockerLogEntry : Type := String × String × String

/-- DockerManager state from mcp_api.py: lifecycle status, start_time, the
bounded log deque, the throttle timestamp _last_operation_time (initially
0), and the lazy Docker-client initialization flags. -/
structure DockerState where
  status : String := "stopped"
  startTime : Option Rat := none
  logs : List DockerLogEntry := []
  lastOperationTime : Rat := 0
  dockerInitialized : Bool := false
  dockerClientOk : Bool := false
  containerFound : Bool := false

/-- The I/O observations one DockerManager call makes: the DEPLOYMENT_MODE
environment variable, whether docker.from_env() succeeds, whether the
archon-mcp container resolves, the container status string the call
observes (reload and resolution errors surface here as not_found or
error, matching the except branches of _get_container_status), whether
container.start() succeeds, and the wall clock at the throttle check and
after the container start. -/
structure DockerEnv where
  deploymentMode : String := ""
  dockerFromEnvOk : Bool := true
  containerPresent : Bool := true
  containerStatus : String := "exited"
  startOk : Bool := true
  now : Rat := 0
  nowStart : Rat := 0

/-- The result dict a DockerManager lifecycle call returns. -/
structure DockerResult where
  success : Bool
  status : String
  message : String
  deriving DecidableEq, Repr

/-- DockerManager._add_log from mcp_api.py: the timestamp expression
datetime.now(datetime.timezone.utc) first evaluates the attribute access
datetime.timezone on the datetime class, which raises AttributeError, so
no entry is ever appended; the continuation (calling now and isoformat and
appending the entry) is unreachable and the ok branch below is vacuous
for the attribute the source looks up. -/
def dockerAddLog (st : DockerState) (level msg : String) : Except PyExc DockerState :=
  match pyGetattrDatetime "timezone" with
  | .error e => .error e
  | .ok _ => .ok { st with logs := boundedAppend 1000 st.logs ("", level, msg) }

/-- DockerManager._initialize_docker_client: memoized; in Kubernetes mode
no client is created; otherwise docker.from_env() and the container
resolution run once. -/
def dockerInit (env : DockerEnv) (st : DockerState) : DockerState × Bool :=
  if st.dockerInitialized then (st, st.dockerClientOk)
  else if env.deploymentMode == "kubernetes" then
    ({ st with dockerInitialized := true }, false)
  else if env.dockerFromEnvOk then
    ({ st with dockerInitialized := true, dockerClientOk := true,
               containerFound := env.containerPresent }, true)
  else
    ({ st with dockerInitialized := true, dockerClientOk := false }, false)

/-- DockerManager._get_container_status: docker_unavailable without a
client; with a resolved container the observed status; otherwise one
re-resolution attempt before answering not_found. -/
def dockerGetContainerStatus (env : DockerEnv) (st : DockerState) : DockerState × String :=
  let (st, ok) := dockerInit env st
  if !ok then (st, "docker_unavailable")
  else if st.containerFound then (st, env.containerStatus)
  else if env.containerPresent then
    ({ st with containerFound := true }, env.containerStatus)
  else (st, "not_found")

/-- Python format spec .1f on a nonnegative rational: one digit after the
decimal point.  Exact ties are rounded half-up here where CPython rounds
half-even; the throttle waits the claims mention never sit on an exact
tie, and no claim inspects the digits. -/
def pyFormat1f (q : Rat) : String :=
  let t : Int := round (q * 10)
  toString (t / 10) ++ "." ++ toString (t % 10)

/-- The throttled-start result of DockerManager.start_server. -/
def dockerThrottledStart (env : DockerEnv) (st : DockerState) : DockerResult :=
  { success := false
    status := st.status
    message := "Please wait " ++ pyFormat1f (2 - (env.now - st.lastOperationTime))
                 ++ "s before starting server again" }

/-- The throttled-stop result of DockerManager.stop_server. -/
def dockerThrottledStop (env : DockerEnv) (st : DockerState) : DockerResult :=
  { success := false
    status := st.status
    message := "Please wait " ++ pyFormat1f (2 - (env.now - st.lastOperationTime))
                 ++ "s before stopping server again" }

/-- DockerManager.start_server from mcp_api.py.  Under the operation lock
the call first answers a throttled failure when less than the 2 s
min-operation interval has passed since _last_operation_time.  It then
initializes Docker (kubernetes_mode or docker_unavailable on failure),
checks the container status (not_found, or already running), and finally
starts the container.  Once container.start() has succeeded the source
sets status starting, start_time and _last_operation_time and then calls
_add_log, which raises AttributeError; the except handler sets status
failed and calls _add_log again, so the AttributeError propagates out and
the success branch is unreachable.  When container.start() itself raises,
both except handlers likewise call _add_log and the AttributeError
propagates with status failed. -/
def dockerStartServer (env : DockerEnv) (st : DockerState) :
    Except (DockerState × PyExc) (DockerState × DockerResult) :=
  if env.now - st.lastOperationTime < 2 then
    .ok (st, dockerThrottledStart env st)
  else
    let (st, ok) := dockerInit env st
    if !ok then
      if env.deploymentMode == "kubernetes" then
        .ok (st, { success := false, status := "kubernetes_mode"
                   message := "In Kubernetes mode - MCP management handled by sidecar" })
      else
        .ok (st, { success := false, status := "docker_unavailable"
                   message := "Docker is not available. Is Docker socket mounted?" })
    else
      let (st, cstatus) := dockerGetContainerStatus env st
      if cstatus == "not_found" then
        .ok (st, { success := false, status := "not_found"
                   message := "MCP container archon-mcp not found. Run docker-compose up -d archon-mcp" })
      else if cstatus == "running" then
        .ok (st, { success := false, status := "running"
                   message := "MCP server is already running" })
      else if env.startOk then
        .error ({ st with status := "failed"
                          startTime := some env.nowStart
                          lastOperationTime := env.nowStart }, .attributeError)
      else
        .error ({ st with status := "failed" }, .attributeError)

/-- DockerManager.stop_server from mcp_api.py: the same throttle guard and
availability checks; a container that is neither running nor restarting is
answered as not running; otherwise the source sets status stopping and
calls _add_log, which raises AttributeError (the except handler raises
again through its own _add_log), so the stop path past the checks never
returns and never updates _last_operation_time. -/
def dockerStopServer (env : DockerEnv) (st : DockerState) :
    Except (DockerState × PyExc) (DockerState × DockerResult) :=
  if env.now - st.lastOperationTime < 2 then
    .ok (st, dockerThrottledStop env st)
  else
    let (st, ok) := dockerInit env st
    if !ok then
      if env.deploymentMode == "kubernetes" then
        .ok (st, { success := false, status := "kubernetes_mode"
                   message := "In Kubernetes mode - MCP management handled by sidecar" })
      else
        .ok (st, { success := false, status := "docker_unavailable"
                   message := "Docker is not available" })
    else
      let (st, cstatus) := dockerGetContainerStatus env st
      if !(cstatus == "running" || cstatus == "restarting") then
        .ok (st, { success := false, status := cstatus
                   message := "MCP server is not running (status: " ++ cstatus ++ ")" })
      else
        .error ({ st with status := "stopping" }, .attributeError)

/-- No two tracked instances carry the same (server_type, name) when the
name is truthy: the per-history uniqueness guarantee the duplicate check
of start_server maintains. -/
def noDupNamedPairs (l : List (String × ServerInfo)) : Prop :=
  l.Pairwise (fun a b =>
    ¬(truthyStr a.2.name = true ∧ a.2.server_type = b.2.server_type ∧ a.2.name = b.2.name))

/-- A deterministic stand-in for the stream of str(uuid.uuid4()) draws used
by witnesses: the n-th draw is the string of n copies of u, so distinct
draws are distinct strings. -/
def wUuids (n : Nat) : String := String.mk (List.replicate n 'u')

/-- A concrete registered handler for witnesses: returns the number 7. -/
def wHandlerOk : Handler := fun _ => .ok (some (Json.num 7))

/-- A concrete adapter state with one registered method and one pending
request, used by witnesses. -/
def wAdapterState : AdapterState := { handlers := [("ping", wHandlerOk)], pending := ["p1"] }

/-- A concrete incoming request for the registered method. -/
def wRequestMsg : MCPMessage := { id := "9", type := .request, method := some "ping" }

/-- A concrete incoming response whose id matches no pending request. -/
def wStrayResponse : MCPMessage := { id := "zz", type := .response, result := some (Json.num 1) }

/-- A valid python-type config named a, for concrete runs. -/
def cfgNamedA : SCfg := { server_type := "python", name := some "a", transport := "stdio" }

/-- A valid python-type config named b, for concrete runs. -/
def cfgNamedB : SCfg := { server_type := "python", name := some "b", transport := "stdio" }

/-- A valid python-type config with no name: the duplicate check of
start_server is skipped for it. -/
def cfgUnnamed : SCfg := { server_type := "python", name := none, transport := "stdio" }

/-- An invalid config: its server_type is outside the valid set. -/
def cfgBogus : SCfg := { server_type := "bogus", transport := "stdio" }

/-- Environment of a first concrete start call at unix second 100. -/
def envT100 : SidecarEnv :=
  { nowId := 100, nowPod := 100, nowStart := 100, createPod := .ok "mcp-python-100" }

/-- Environment of a second concrete start call at unix second 101, one
second after envT100. -/
def envT101 : SidecarEnv :=
  { nowId := 101, nowPod := 101, nowStart := 101, createPod := .ok "mcp-python-101" }

/-- Environment of a second concrete start call within the same unix
second 100 as envT100. -/
def envT100b : SidecarEnv :=
  { nowId := 100, nowPod := 100, nowStart := 100, createPod := .ok "mcp-python-100b" }

/-- A Ready=True Running pod named mcp-python-100, as the list-pods API
reports it. -/
def podRunningReady100 : Pod :=
  { name := "mcp-python-100", phase := some "Running"
    conditions := [{ condType := "Ready", condStatus := "True" }] }

/-- A Ready=True Running pod named mcp-python-101. -/
def podRunningReady101 : Pod :=
  { name := "mcp-python-101", phase := some "Running"
    conditions := [{ condType := "Ready", condStatus := "True" }] }

/-- A refresh environment observing the first pod running and ready. -/
def envRefresh1 : SidecarEnv := { pods := [podRunningReady100] }

/-- A refresh environment observing both pods running and ready. -/
def envRefresh2 : SidecarEnv := { pods := [podRunningReady100, podRunningReady101] }

/-- A pod whose phase is Succeeded. -/
def podSucceeded : Pod := { name := "mcp-python-100", phase := some "Succeeded" }

/-- A tracked-instance record for the pod mcp-python-100, used to drive
refreshInfo concretely. -/
def infoTracked100 : ServerInfo :=
  { server_id := "python-default-100", pod_name := "mcp-python-100", server_type := "python"
    name := none, transport := "stdio", status := "starting", start_time := 100
    config := cfgUnnamed }

/-- The history of a start of cfgUnnamed at second 100 followed by a
status query observing its pod running and ready. -/
def historyUnnamedRunning : List SidecarOp :=
  [.start envT100 (some cfgUnnamed), .statusQuery envRefresh1]

/-- historyUnnamedRunning continued: a second start of the same unnamed
config at second 101 and a status query observing both pods running. -/
def historyUnnamedTwice : List SidecarOp :=
  [.start envT100 (some cfgUnnamed), .statusQuery envRefresh1,
   .start envT101 (some cfgUnnamed), .statusQuery envRefresh2]

/-- A sidecar configuration whose concurrency limit is one, to exercise
the at-limit branch with a small concrete state. -/
def cfgSLimit1 : SidecarCfgM := { maxConcurrentServers := 1 }

/-- A concrete Docker environment probing at time 100 with an exited
container present: the call passes every guard and reaches
container.start(). -/
def dockerEnvRun : DockerEnv :=
  { deploymentMode := "", dockerFromEnvOk := true, containerPresent := true
    containerStatus := "exited", startOk := true, now := 100, nowStart := 100 }

/-- Environment of a start call whose pod POST raises (connection reset
modelled as a generic exception). -/
def envCreateFail : SidecarEnv := { nowId := 100, createPod := .error (.other "boom") }

/-- The state after one successful start of the named config cfgNamedA at
unix second 100. -/
def stNamedA : SidecarState :=
  (sidecarStartServer {} envT100 initSidecarState (some cfgNamedA)).1

/-- The record stNamedA tracks for cfgNamedA. -/
def infoNamedA : ServerInfo := trackedInfo envT100 cfgNamedA "python-a-100" "mcp-python-100"

/-- C2 counterexample: an MCPMessage of kind ERROR does not survive the
round trip even modulo timestamp and protocol: to_jsonrpc emits only the
jsonrpc and id keys, and from_jsonrpc parses that dict as a RESPONSE. -/
theorem jsonrpc_roundtrip_error_kind_cex :
    MCPMessage.from_jsonrpc "fresh-uuid"
        (MCPMessage.to_jsonrpc { id := "1", type := .errorKind }) ≠
      { id := "1", type := .errorKind } := by
  intro h
  have htype := congrArg MCPMessage.type h
  have : MessageType.response = MessageType.errorKind := htype
  exact absurd this (by decide)

/-- C2, amended: from_jsonrpc (to_jsonrpc m) = m modulo timestamp and
protocol holds exactly for requests whose params dict is not empty and
that carry no result or error, and for responses with no method or params
whose error is either absent or a non-empty dict alongside an absent
result; kind NOTIFICATION loses its id to a fresh uuid and kind ERROR
parses back as a response, so neither round-trips. -/
theorem jsonrpc_roundtrip_spec (fresh : String) (m : MCPMessage)
    (h : (m.type = .request ∧ m.params ≠ some [] ∧ m.result = none ∧ m.error = none) ∨
         (m.type = .response ∧ m.method = none ∧ m.params = none ∧
           (m.error = none ∨ (truthyObj m.error = true ∧ m.result = none)))) :
    MCPMessage.from_jsonrpc fresh (MCPMessage.to_jsonrpc m) = m := by
  rcases m with ⟨mid, mty, mmth, mps, mres, merr⟩
  rcases h with ⟨hty, hps, hres, herr⟩ | ⟨hty, hmth, hps, herr⟩
  · simp only [MCPMessage.mk.injEq] at hty hres herr ⊢
    subst hty
    simp only at hps hres herr
    subst hres
    subst herr
    by_cases hp : truthyObj mps = true
    · simp [MCPMessage.to_jsonrpc, hp, MCPMessage.from_jsonrpc]
    · have hmpsnone : mps = none := by
        cases mps with
        | none => rfl
        | some l =>
          cases l with
          | nil => exact absurd rfl hps
          | cons a t => simp [truthyObj] at hp
      subst hmpsnone
      simp [MCPMessage.to_jsonrpc, truthyObj, MCPMessage.from_jsonrpc]
  · simp only at hty hmth hps
    subst hty
    subst hmth
    subst hps
    rcases herr with herr | ⟨htr, hres⟩
    · simp only at herr
      subst herr
      simp [MCPMessage.to_jsonrpc, truthyObj, MCPMessage.from_jsonrpc]
    · simp only at hres
      subst hres
      simp [MCPMessage.to_jsonrpc, htr, MCPMessage.from_jsonrpc]

/-- C2 witness: a concrete tools/list request round-trips unchanged. -/
theorem jsonrpc_roundtrip_spec_witness :
    MCPMessage.from_jsonrpc "w"
        (MCPMessage.to_jsonrpc { id := "7", type := .request, method := some "tools/list" }) =
      { id := "7", type := .request, method := some "tools/list" } :=
  jsonrpc_roundtrip_spec "w" _ (Or.inl ⟨rfl, by simp, rfl, rfl⟩)

/-- C5: an incoming request with a registered handler is answered by a
response carrying the request id and the handler result, or an error
object with code -32603 when the handler raises; a request without a
registered handler is answered with code -32601; an incoming response
whose id matches no pending request is dropped: nothing is sent and
pending_requests (and the completion record) are unchanged. -/
theorem handle_incoming_message_spec (st : AdapterState) (m : MCPMessage) :
    (∀ h : Handler, m.type = .request → lookupHandler m.method st.handlers = some h →
       ((∀ r, h (m.params.getD []) = .ok r →
           st.handleIncomingMessage m =
             { st with queue := boundedAppend 1000 st.queue m
                       sent := st.sent ++ [{ id := m.id, type := .response, result := r }] }) ∧
        (∀ e, h (m.params.getD []) = .error e →
           st.handleIncomingMessage m =
             { st with queue := boundedAppend 1000 st.queue m
                       sent := st.sent ++
                         [{ id := m.id, type := .response
                            error := some [("code", Json.num (-32603)),
                                           ("message", Json.str ("Internal error: " ++ e))] }] }))) ∧
    (m.type = .request → lookupHandler m.method st.handlers = none →
       st.handleIncomingMessage m =
         { st with queue := boundedAppend 1000 st.queue m
                   sent := st.sent ++
                     [{ id := m.id, type := .response
                        error := some [("code", Json.num (-32601)),
                                       ("message", Json.str ("Method not found: " ++ pyStrOpt m.method))] }] }) ∧
    (m.type = .response → st.pending.contains m.id = false →
       st.handleIncomingMessage m = { st with queue := boundedAppend 1000 st.queue m }) := by
  refine ⟨fun h hty hl => ⟨fun r hr => ?_, fun e he => ?_⟩, fun hty hl => ?_, fun hty hp => ?_⟩
  · simp [AdapterState.handleIncomingMessage, hty, AdapterState.handleRequest, hl, hr,
          AdapterState.send]
  · simp [AdapterState.handleIncomingMessage, hty, AdapterState.handleRequest, hl, he,
          AdapterState.send]
  · simp [AdapterState.handleIncomingMessage, hty, AdapterState.handleRequest, hl,
          AdapterState.send]
  · simp only [AdapterState.handleIncomingMessage, hty, AdapterState.handleResponse]
    rw [if_neg (fun hmem => by rw [hp] at hmem; cases hmem)]

/-- C5 witness: on the concrete adapter state, the registered ping handler
answers with the wrapped value 7, and a stray response leaves the state
(beyond the message queue) untouched. -/
theorem handle_incoming_message_spec_witness :
    wAdapterState.handleIncomingMessage wRequestMsg =
      { wAdapterState with queue := boundedAppend 1000 wAdapterState.queue wRequestMsg
                           sent := wAdapterState.sent ++
                             [{ id := "9", type := .response, result := some (Json.num 7) }] } ∧
    wAdapterState.handleIncomingMessage wStrayResponse =
      { wAdapterState with queue := boundedAppend 1000 wAdapterState.queue wStrayResponse } :=
  ⟨((handle_incoming_message_spec wAdapterState wRequestMsg).1 wHandlerOk rfl rfl).1
      (some (Json.num 7)) rfl,
   (handle_incoming_message_spec wAdapterState wStrayResponse).2.2 rfl rfl⟩

/-- Helper: one incoming message either leaves the completion record alone
or, when it is a response, appends exactly its own (id, outcome). -/
theorem handleIncoming_resolved_cases (st : AdapterState) (r : MCPMessage) :
    (st.handleIncomingMessage r).resolved = st.resolved ∨
    (r.type = .response ∧
     (st.handleIncomingMessage r).resolved = st.resolved ++ [(r.id, outcomeOf r)]) := by
  unfold AdapterState.handleIncomingMessage AdapterState.handleRequest
    AdapterState.handleResponse AdapterState.handleNotify
  cases hty : r.type
  · left
    dsimp only
    split
    · split <;> rfl
    · rfl
  · dsimp only
    split
    · right
      exact ⟨rfl, rfl⟩
    · left
      rfl
  · left
    dsimp only
    split <;> rfl
  · left
    rfl

/-- Helper: every completion recorded by a delivery run was present before
or stems from a delivered response with that exact id and outcome. -/
theorem deliverAll_resolved_mem (st : AdapterState) (ms : List MCPMessage) (x : String)
    (o : RpcOutcome) :
    (x, o) ∈ (st.deliverAll ms).resolved →
    (x, o) ∈ st.resolved ∨ ∃ r ∈ ms, r.type = .response ∧ r.id = x ∧ o = outcomeOf r := by
  induction ms generalizing st with
  | nil => exact fun h => Or.inl h
  | cons r rest ih =>
    intro h
    have h2 := ih (st.handleIncomingMessage r) h
    rcases h2 with h2 | ⟨r2, hr2, hty2, hid2, ho2⟩
    · rcases handleIncoming_resolved_cases st r with hcase | ⟨hty, hcase⟩
      · rw [hcase] at h2
        exact Or.inl h2
      · rw [hcase] at h2
        rcases List.mem_append.mp h2 with h3 | h3
        · exact Or.inl h3
        · have h4 : (x, o) = (r.id, outcomeOf r) := by simpa using h3
          have hx : r.id = x := (Prod.mk.injEq _ _ _ _ ▸ h4).1.symm
          have ho : o = outcomeOf r := (Prod.mk.injEq _ _ _ _ ▸ h4).2
          exact Or.inr ⟨r, List.mem_cons_self r rest, hty, hx, ho⟩
    · exact Or.inr ⟨r2, List.mem_cons_of_mem r hr2, hty2, hid2, ho2⟩

/-- Helper: the bridge response-wait loop only ever returns a frame whose
id key holds its own request id. -/
theorem bridgeAwaitResponse_id (rid : String) (frames : List (Option (List (String × Json))))
    (d : List (String × Json)) :
    bridgeAwaitResponse rid frames = some d → d.lookup "id" = some (Json.str rid) := by
  induction frames with
  | nil => intro h; cases h
  | cons f rest ih =>
    cases f with
    | none => exact fun h => ih (by simpa [bridgeAwaitResponse] using h)
    | some d0 =>
      intro h
      simp only [bridgeAwaitResponse] at h
      by_cases hc : (!d0.isEmpty && (match d0.lookup "id" with
                                     | some (Json.str s) => s == rid
                                     | _ => false)) = true
      · rw [if_pos hc] at h
        injection h with h
        subst h
        have hmatch : (match d0.lookup "id" with
                       | some (Json.str s) => s == rid
                       | _ => false) = true := (Bool.and_eq_true _ _ |>.mp hc).2
        cases hl : d0.lookup "id" with
        | none => rw [hl] at hmatch; cases hmatch
        | some v =>
          cases v with
          | str s =>
            rw [hl] at hmatch
            simp only at hmatch
            rw [eq_of_beq hmatch]
          | null => rw [hl] at hmatch; cases hmatch
          | jbool b => rw [hl] at hmatch; cases hmatch
          | num n => rw [hl] at hmatch; cases hmatch
          | arr es => rw [hl] at hmatch; cases hmatch
          | obj fs => rw [hl] at hmatch; cases hmatch
      · rw [if_neg hc] at h
        exact ih h

/-- C6: two concurrent send_request calls on the same bridge get distinct
fresh ids (uuid4 modelled as an injective draw stream); with both requests
pending, out-of-order responses complete each call exactly once with its
own outcome; any recorded completion for an id stems from a response
carrying that id; and the stdio-bridge wait loop returns only a frame
whose id equals its own request id (anything else ends in the timeout,
i.e. none). -/
theorem request_response_correlation_spec
    (uuids : Nat → String) (hinj : Function.Injective uuids) (i j : Nat) (hij : i ≠ j)
    (method1 method2 : String) (params1 params2 : Option (List (String × Json))) :
    uuids i ≠ uuids j ∧
    (∀ ri rj : MCPMessage, ri.type = .response → rj.type = .response →
       ri.id = uuids i → rj.id = uuids j →
       (((({} : AdapterState).sendRequestStep (uuids i) method1 params1).sendRequestStep
            (uuids j) method2 params2).deliverAll [rj, ri]).resolved =
         [(uuids j, outcomeOf rj), (uuids i, outcomeOf ri)]) ∧
    (∀ (st : AdapterState) (ms : List MCPMessage) (x : String) (o : RpcOutcome),
       (x, o) ∈ (st.deliverAll ms).resolved →
       (x, o) ∈ st.resolved ∨ ∃ r ∈ ms, r.type = .response ∧ r.id = x ∧ o = outcomeOf r) ∧
    (∀ (frames : List (Option (List (String × Json)))) (d : List (String × Json)),
       bridgeAwaitResponse (uuids i) frames = some d →
       d.lookup "id" = some (Json.str (uuids i))) := by
  have hne : uuids i ≠ uuids j := fun h => hij (hinj h)
  refine ⟨hne, ?_, deliverAll_resolved_mem, fun frames d => bridgeAwaitResponse_id _ frames d⟩
  intro ri rj hity hjty hiid hjid
  have hbeji : (uuids j == uuids i) = false := beq_eq_false_iff_ne.mpr (Ne.symm hne)
  have hbeij : (uuids i == uuids j) = false := beq_eq_false_iff_ne.mpr hne
  simp [AdapterState.sendRequestStep, AdapterState.send, pendingInsert,
        AdapterState.deliverAll, AdapterState.handleIncomingMessage, hity, hjty,
        AdapterState.handleResponse, hiid, hjid, List.contains, List.elem, List.erase,
        hbeji, hbeij, List.erase_cons]

/-- C6 witness: the draw stream of replicated characters is injective,
its draws 0 and 1 differ, and the wait loop times out on an empty frame
sequence. -/
theorem request_response_correlation_spec_witness :
    wUuids 0 ≠ wUuids 1 ∧ bridgeAwaitResponse (wUuids 0) [] = none :=
  ⟨(request_response_correlation_spec wUuids
      (fun a b h => by
        have hd := congrArg String.data h
        simp only [wUuids] at hd
        have := congrArg List.length hd
        simpa using this)
      0 1 (by decide) "tools/list" "tools/call" none none).1,
   rfl⟩

/-- Helper: lazy Docker-client initialization never touches the throttle
timestamp. -/
theorem dockerInit_lastOp (env : DockerEnv) (st : DockerState) :
    (dockerInit env st).1.lastOperationTime = st.lastOperationTime := by
  unfold dockerInit
  split
  · rfl
  · split
    · rfl
    · split <;> rfl

/-- Helper: the container-status probe never touches the throttle
timestamp. -/
theorem dockerGetContainerStatus_lastOp (env : DockerEnv) (st : DockerState) :
    (dockerGetContainerStatus env st).1.lastOperationTime = st.lastOperationTime := by
  unfold dockerGetContainerStatus
  rcases hI : dockerInit env st with ⟨stI, okI⟩
  have hlast : stI.lastOperationTime = st.lastOperationTime := by
    have := dockerInit_lastOp env st
    rw [hI] at this
    exact this
  dsimp only
  split
  · exact hlast
  · split
    · exact hlast
    · split
      · exact hlast
      · exact hlast

/-- Helper: no outcome of DockerManager.stop_server updates the throttle
timestamp _last_operation_time: the returning branches leave it alone, and
the path that would update it after container.stop() is cut short by the
AttributeError raised from _add_log. -/
theorem dockerStopServer_lastOp (env : DockerEnv) (st : DockerState) :
    (∀ stR res, dockerStopServer env st = .ok (stR, res) →
        stR.lastOperationTime = st.lastOperationTime) ∧
    (∀ stE e, dockerStopServer env st = .error (stE, e) →
        stE.lastOperationTime = st.lastOperationTime) := by
  rcases hI : dockerInit env st with ⟨stI, okI⟩
  have hlastI : stI.lastOperationTime = st.lastOperationTime := by
    have h0 := dockerInit_lastOp env st
    rw [hI] at h0
    exact h0
  rcases hG : dockerGetContainerStatus env stI with ⟨stG, cst⟩
  have hlastG : stG.lastOperationTime = st.lastOperationTime := by
    have h0 := dockerGetContainerStatus_lastOp env stI
    rw [hG] at h0
    rw [h0]
    exact hlastI
  constructor
  · intro stR res h
    unfold dockerStopServer at h
    split at h
    · simp only [Except.ok.injEq, Prod.mk.injEq] at h
      rw [← h.1]
    · rw [hI] at h
      dsimp only at h
      split at h
      · split at h
        · simp only [Except.ok.injEq, Prod.mk.injEq] at h
          rw [← h.1]
          exact hlastI
        · simp only [Except.ok.injEq, Prod.mk.injEq] at h
          rw [← h.1]
          exact hlastI
      · rw [hG] at h
        dsimp only at h
        split at h
        · simp only [Except.ok.injEq, Prod.mk.injEq] at h
          rw [← h.1]
          exact hlastG
        · simp at h
  · intro stE e h
    unfold dockerStopServer at h
    split at h
    · simp at h
    · rw [hI] at h
      dsimp only at h
      split at h
      · split at h <;> simp at h
      · rw [hG] at h
        dsimp only at h
        split at h
        · simp at h
        · simp only [Except.error.injEq, Prod.mk.injEq] at h
          rw [← h.1]
          exact hlastG

/-- C1, amended: only the Docker manager throttles.  A start or stop call
arriving while less than 2 s have passed since the recorded
_last_operation_time returns success=false with the Please-wait message
carrying the remaining wait, without touching state; and the stop path
never updates the recorded time (its update is unreachable behind the
raising _add_log), so the window is anchored only by starts that reached
container.start().  The Kubernetes sidecar manager applies no throttle,
as the C1 counterexample shows. -/
theorem docker_throttle_spec (env : DockerEnv) (st : DockerState)
    (h : env.now - st.lastOperationTime < 2) :
    dockerStartServer env st = .ok (st, dockerThrottledStart env st) ∧
    dockerStopServer env st = .ok (st, dockerThrottledStop env st) ∧
    (∀ (env2 : DockerEnv) (st2 stR : DockerState) (res : DockerResult),
        dockerStopServer env2 st2 = .ok (stR, res) →
        stR.lastOperationTime = st2.lastOperationTime) ∧
    (∀ (env2 : DockerEnv) (st2 stE : DockerState) (e : PyExc),
        dockerStopServer env2 st2 = .error (stE, e) →
        stE.lastOperationTime = st2.lastOperationTime) := by
  refine ⟨?_, ?_, fun env2 st2 => (dockerStopServer_lastOp env2 st2).1,
          fun env2 st2 => (dockerStopServer_lastOp env2 st2).2⟩
  · unfold dockerStartServer
    rw [if_pos h]
  · unfold dockerStopServer
    rw [if_pos h]

/-- C1 witness: with the last operation recorded at time 0 and a call at
time 1, both start and stop answer the throttled Please-wait failure. -/
theorem docker_throttle_spec_witness :
    dockerStartServer { now := 1 } {} = .ok ({}, dockerThrottledStart { now := 1 } {}) ∧
    dockerStopServer { now := 1 } {} = .ok ({}, dockerThrottledStop { now := 1 } {}) :=
  ⟨(docker_throttle_spec { now := 1 } {} (by norm_num)).1,
   (docker_throttle_spec { now := 1 } {} (by norm_num)).2.1⟩

/-- C1 counterexample: the sidecar manager never throttles.  Two start
calls one second apart (unix seconds 100 and 101, well inside the claimed
2 s window) both complete with success=true, so the pair satisfies
neither disjunct of the claimed invariant. -/
theorem sidecar_no_throttle_cex :
    (sidecarStartServer {} envT100 initSidecarState (some cfgNamedA)).2.success = true ∧
    (sidecarStartServer {} envT101
        (sidecarStartServer {} envT100 initSidecarState (some cfgNamedA)).1
        (some cfgNamedB)).2.success = true ∧
    envT101.nowStart - envT100.nowStart < 2 :=
  ⟨rfl, rfl, by norm_num [envT100, envT101]⟩

/-- C10, amended: every call to DockerManager._add_log raises
AttributeError (datetime.timezone is looked up on the datetime class), so
the success branch of start_server is unreachable — every returning call
has success=false — and a call that reaches the container-start attempt
does not return a failure result but propagates the AttributeError (the
except handlers call _add_log again). -/
theorem docker_add_log_attribute_error_spec :
    (∀ (st : DockerState) (level msg : String),
        dockerAddLog st level msg = .error .attributeError) ∧
    (∀ (env : DockerEnv) (st stR : DockerState) (res : DockerResult),
        dockerStartServer env st = .ok (stR, res) → res.success = false) ∧
    (∀ (env : DockerEnv) (st : DockerState),
        2 ≤ env.now - st.lastOperationTime →
        st.dockerInitialized = false →
        env.deploymentMode ≠ "kubernetes" →
        env.dockerFromEnvOk = true →
        env.containerPresent = true →
        env.containerStatus ≠ "not_found" →
        env.containerStatus ≠ "running" →
        ∃ stE, dockerStartServer env st = .error (stE, .attributeError)) := by
  refine ⟨fun st level msg => rfl, ?_, ?_⟩
  · intro env st stR res h
    unfold dockerStartServer at h
    split at h
    · simp only [Except.ok.injEq, Prod.mk.injEq] at h
      rw [← h.2]
      rfl
    · rcases hI : dockerInit env st with ⟨stI, okI⟩
      rw [hI] at h
      dsimp only at h
      split at h
      · split at h
        · simp only [Except.ok.injEq, Prod.mk.injEq] at h
          rw [← h.2]
        · simp only [Except.ok.injEq, Prod.mk.injEq] at h
          rw [← h.2]
      · rcases hG : dockerGetContainerStatus env stI with ⟨stG, cst⟩
        rw [hG] at h
        dsimp only at h
        split at h
        · simp only [Except.ok.injEq, Prod.mk.injEq] at h
          rw [← h.2]
        · split at h
          · simp only [Except.ok.injEq, Prod.mk.injEq] at h
            rw [← h.2]
          · split at h <;> simp at h
  · intro env st h1 h2 h3 h4 h5 h6 h7
    have hInit : dockerInit env st =
        ({ st with dockerInitialized := true, dockerClientOk := true
                   containerFound := env.containerPresent }, true) := by
      unfold dockerInit
      rw [if_neg (fun hc => by rw [h2] at hc; cases hc),
          if_neg (fun hc => by rw [beq_eq_false_iff_ne.mpr h3] at hc; cases hc),
          if_pos h4]
    unfold dockerStartServer
    rw [if_neg (not_lt.mpr h1), hInit]
    dsimp only
    rw [if_neg (by decide)]
    have hG : dockerGetContainerStatus env
        ({ st with dockerInitialized := true, dockerClientOk := true
                   containerFound := env.containerPresent } : DockerState) =
        ({ st with dockerInitialized := true, dockerClientOk := true
                   containerFound := env.containerPresent }, env.containerStatus) := by
      unfold dockerGetContainerStatus dockerInit
      rw [if_pos rfl]
      dsimp only
      rw [if_neg (by decide), if_pos (by rw [h5])]
    rw [hG]
    dsimp only
    rw [if_neg (fun hc => by rw [beq_eq_false_iff_ne.mpr h6] at hc; cases hc),
        if_neg (fun hc => by rw [beq_eq_false_iff_ne.mpr h7] at hc; cases hc)]
    by_cases hS : env.startOk = true
    · exact ⟨_, by rw [if_pos hS]⟩
    · exact ⟨_, by rw [if_neg hS]⟩

/-- C10 witness: _add_log raises on a concrete call, and a concrete
unthrottled start with an exited container present ends in the propagated
AttributeError. -/
theorem docker_add_log_attribute_error_spec_witness :
    dockerAddLog {} "INFO" "MCP container starting..." = .error .attributeError ∧
    (∃ stE, dockerStartServer dockerEnvRun {} = .error (stE, .attributeError)) :=
  ⟨docker_add_log_attribute_error_spec.1 {} "INFO" "MCP container starting...",
   docker_add_log_attribute_error_spec.2.2 dockerEnvRun {}
     (by norm_num [dockerEnvRun]) rfl (by decide) rfl rfl (by decide) (by decide)⟩

/-- C10 counterexample: at a concrete input where the container was
started (exited container present, start succeeds), start_server does not
return a failure result — it raises AttributeError, leaving status failed
and the throttle timestamp updated. -/
theorem docker_start_raises_cex :
    dockerStartServer dockerEnvRun {} =
      .error ({ status := "failed", startTime := some 100, logs := []
                lastOperationTime := 100, dockerInitialized := true
                dockerClientOk := true, containerFound := true }, .attributeError) := by
  unfold dockerStartServer
  rw [if_neg (by norm_num [dockerEnvRun])]
  rfl

/-- C4 counterexample: a pod in phase Succeeded is recorded as Completed,
not Stopped as the specification table says, both by get_pod_status
directly and through a reconciliation of a tracked instance. -/
theorem succeeded_maps_completed_cex :
    getPodStatus podSucceeded = "Completed" ∧
    getPodStatus podSucceeded ≠ "Stopped" ∧
    (refreshInfo [podSucceeded] infoTracked100).status = "Completed" :=
  ⟨rfl, by decide, rfl⟩

/-- C4, amended: the reconciliation triggered by status() maps each
tracked instance through the observed pod exactly as the code table says:
absent pod to not_found (and not ready); present pod to get_pod_status
and is_pod_ready, where Running with first Ready condition True is
Running, Running otherwise is Starting, Succeeded is Completed (not the
claimed Stopped), Failed is Failed, and Pending is Pending (reason) for
the first container with a truthy waiting state and bare Pending with
none. -/
theorem reconcile_status_mapping_spec :
    (∀ (pods : List Pod) (info : ServerInfo),
        pods.find? (fun q => q.name == info.pod_name) = none →
        (refreshInfo pods info).status = "not_found" ∧
        (refreshInfo pods info).ready = some false) ∧
    (∀ (pods : List Pod) (info : ServerInfo) (p : Pod),
        pods.find? (fun q => q.name == info.pod_name) = some p →
        (refreshInfo pods info).status = getPodStatus p ∧
        (refreshInfo pods info).ready = some (isPodReady p)) ∧
    (∀ p : Pod, p.phase = some "Running" → isPodReady p = true →
        getPodStatus p = "Running") ∧
    (∀ p : Pod, p.phase = some "Running" → isPodReady p = false →
        getPodStatus p = "Starting") ∧
    (∀ p : Pod, p.phase = some "Succeeded" → getPodStatus p = "Completed") ∧
    (∀ p : Pod, p.phase = some "Failed" → getPodStatus p = "Failed") ∧
    (∀ (p : Pod) (cs : ContainerStatusEntry), p.phase = some "Pending" →
        p.containerStatuses.find? (fun c => match c.waiting with
                                            | some w => !w.isEmpty
                                            | none => false) = some cs →
        getPodStatus p =
          "Pending (" ++ ((cs.waiting.getD []).lookup "reason").getD "Unknown" ++ ")") ∧
    (∀ p : Pod, p.phase = some "Pending" →
        p.containerStatuses.find? (fun c => match c.waiting with
                                            | some w => !w.isEmpty
                                            | none => false) = none →
        getPodStatus p = "Pending") := by
  refine ⟨?_, ?_, ?_, ?_, ?_, ?_, ?_, ?_⟩
  · intro pods info hf
    unfold refreshInfo
    rw [hf]
    exact ⟨rfl, rfl⟩
  · intro pods info p hf
    unfold refreshInfo
    rw [hf]
    exact ⟨rfl, rfl⟩
  · intro p hp hr
    unfold getPodStatus
    rw [hp]
    simp [hr]
  · intro p hp hr
    unfold getPodStatus
    rw [hp]
    simp [hr]
  · intro p hp
    unfold getPodStatus
    rw [hp]
    rfl
  · intro p hp
    unfold getPodStatus
    rw [hp]
    rfl
  · intro p cs hp hf
    unfold getPodStatus
    rw [hp]
    simp only [Option.getD_some]
    rw [if_pos (by decide)]
    rw [hf]
  · intro p hp hf
    unfold getPodStatus
    rw [hp]
    simp only [Option.getD_some]
    rw [if_pos (by decide)]
    rw [hf]

/-- C4 witness: at a concrete running-and-ready pod the reconciliation
records Running, and an absent pod records not_found. -/
theorem reconcile_status_mapping_spec_witness :
    (refreshInfo [podRunningReady100] infoTracked100).status = getPodStatus podRunningReady100 ∧
    getPodStatus podRunningReady100 = "Running" ∧
    (refreshInfo [] infoTracked100).status = "not_found" :=
  ⟨(reconcile_status_mapping_spec.2.1 [podRunningReady100] infoTracked100 podRunningReady100 rfl).1,
   reconcile_status_mapping_spec.2.2.1 podRunningReady100 rfl rfl,
   (reconcile_status_mapping_spec.1 [] infoTracked100 rfl).1⟩

/-- Helper: dict assignment grows the dict by at most one entry. -/
theorem dictInsert_length_le (k : String) (v : α) (l : List (String × α)) :
    (dictInsert k v l).length ≤ l.length + 1 := by
  induction l with
  | nil => simp [dictInsert]
  | cons hd tl ih =>
    obtain ⟨k2, v2⟩ := hd
    unfold dictInsert
    split
    · simp
    · simp only [List.length_cons]
      exact Nat.succ_le_succ ih

/-- Helper: members of a dict after assignment are the new entry or old
members. -/
theorem mem_dictInsert {k : String} {v : α} {l : List (String × α)} {y : String × α}
    (h : y ∈ dictInsert k v l) : y = (k, v) ∨ y ∈ l := by
  induction l with
  | nil => simpa [dictInsert] using h
  | cons hd tl ih =>
    obtain ⟨k2, v2⟩ := hd
    unfold dictInsert at h
    split at h
    · rcases List.mem_cons.mp h with h | h
      · exact Or.inl h
      · exact Or.inr (List.mem_cons_of_mem _ h)
    · rcases List.mem_cons.mp h with h | h
      · exact Or.inr (by rw [h]; exact List.mem_cons_self _ _)
      · rcases ih h with h | h
        · exact Or.inl h
        · exact Or.inr (List.mem_cons_of_mem _ h)

/-- Helper: dict assignment preserves pairwise relations provided the new
entry relates to every old one in both directions. -/
theorem pairwise_dictInsert {R : (String × ServerInfo) → (String × ServerInfo) → Prop}
    (k : String) (v : ServerInfo) (l : List (String × ServerInfo))
    (hl : l.Pairwise R) (hx : ∀ y ∈ l, R y (k, v) ∧ R (k, v) y) :
    (dictInsert k v l).Pairwise R := by
  induction l with
  | nil => simp [dictInsert]
  | cons hd tl ih =>
    obtain ⟨k2, v2⟩ := hd
    rcases List.pairwise_cons.mp hl with ⟨hhd, htl⟩
    unfold dictInsert
    split
    · refine List.pairwise_cons.mpr ⟨?_, htl⟩
      intro y hy
      exact (hx y (List.mem_cons_of_mem _ hy)).2
    · refine List.pairwise_cons.mpr
        ⟨?_, ih htl (fun y hy => hx y (List.mem_cons_of_mem _ hy))⟩
      intro y hy
      rcases mem_dictInsert hy with h | hy2
      · rw [h]
        exact (hx (k2, v2) (List.mem_cons_self _ _)).1
      · exact hhd y hy2


/-- Helper: a start call either leaves the tracking dict unchanged or, with
a validated config below the limit and no tracked duplicate of a truthy
name, assigns the tracked record under the generated server id. -/
theorem sidecarStartServer_runningServers_cases (cfgS : SidecarCfgM) (env : SidecarEnv)
    (st : SidecarState) (c : Option SCfg) :
    (sidecarStartServer cfgS env st c).1.runningServers = st.runningServers ∨
    (∃ cfgV podN,
      validateConfig (c.getD {}) = .ok cfgV ∧
      st.runningServers.length < cfgS.maxConcurrentServers ∧
      (truthyStr cfgV.name = true →
        (st.runningServers.map Prod.snd).find? (sameTypeAndName cfgV) = none) ∧
      (sidecarStartServer cfgS env st c).1.runningServers =
        dictInsert (serverIdString cfgV env.nowId)
          (trackedInfo env cfgV (serverIdString cfgV env.nowId) podN) st.runningServers) := by
  unfold sidecarStartServer
  split
  · left; rfl
  · rename_i cfgV hv
    split
    · left; rfl
    · rename_i hlen
      split
      · left; rfl
      · rename_i hex
        split
        · left; rfl
        · left; rfl
        · rename_i podN hc
          right
          refine ⟨cfgV, podN, hv, lt_of_not_ge hlen, fun ht => ?_, ?_⟩
          · rw [if_pos ht] at hex
            exact hex
          · unfold sidecarStartTrack sidecarAddLog
            dsimp only
            split <;> rfl

/-- Helper: a single-id stop either leaves the tracking dict unchanged or
deletes exactly that id. -/
theorem sidecarStopOne_runningServers_cases (env : SidecarEnv) (st : SidecarState)
    (sid : String) :
    (sidecarStopOne env st sid).1.runningServers = st.runningServers ∨
    (sidecarStopOne env st sid).1.runningServers = dictErase sid st.runningServers := by
  unfold sidecarStopOne
  split
  · left; rfl
  · split
    · left; rfl
    · right
      unfold sidecarAddLog
      dsimp only
      split <;> rfl

/-- Helper: reconciliation rewrites tracked records in place, preserving
their names and server types. -/
theorem refreshInfo_fields (pods : List Pod) (info : ServerInfo) :
    (refreshInfo pods info).name = info.name ∧
    (refreshInfo pods info).server_type = info.server_type := by
  unfold refreshInfo
  split <;> exact ⟨rfl, rfl⟩

/-- Helper: a stop of all servers always clears the tracking dict. -/
theorem sidecarStopAll_clears (env : SidecarEnv) (st : SidecarState) :
    (sidecarStopAll env st).1.runningServers = [] := by
  unfold sidecarStopAll
  dsimp only
  split <;> rfl

/-- Helper: one sidecar operation keeps the tracked-server count within the
configured limit. -/
theorem sidecarStep_length_le (cfgS : SidecarCfgM) (st : SidecarState) (op : SidecarOp)
    (h : st.runningServers.length ≤ cfgS.maxConcurrentServers) :
    (sidecarStep cfgS st op).runningServers.length ≤ cfgS.maxConcurrentServers := by
  cases op with
  | start env c =>
    show (sidecarStartServer cfgS env st c).1.runningServers.length ≤ _
    rcases sidecarStartServer_runningServers_cases cfgS env st c with
      hc | ⟨cfgV, podN, _, hlen, _, hc⟩
    · rw [hc]; exact h
    · rw [hc]
      exact le_trans (dictInsert_length_le _ _ _) hlen
  | stop env sid? =>
    cases sid? with
    | some sid =>
      show (sidecarStopOne env st sid).1.runningServers.length ≤ _
      rcases sidecarStopOne_runningServers_cases env st sid with hc | hc
      · rw [hc]; exact h
      · rw [hc]
        exact le_trans (List.length_filter_le _ _) h
    | none =>
      show (sidecarStopAll env st).1.runningServers.length ≤ _
      rw [sidecarStopAll_clears]
      exact Nat.zero_le _
  | statusQuery env =>
    show (sidecarRefresh env st).runningServers.length ≤ _
    unfold sidecarRefresh
    simpa using h

/-- Helper: one sidecar operation preserves the no-duplicate-named-pair
invariant of the tracking dict. -/
theorem sidecarStep_noDup (cfgS : SidecarCfgM) (st : SidecarState) (op : SidecarOp)
    (h : noDupNamedPairs st.runningServers) :
    noDupNamedPairs (sidecarStep cfgS st op).runningServers := by
  cases op with
  | start env c =>
    show noDupNamedPairs (sidecarStartServer cfgS env st c).1.runningServers
    rcases sidecarStartServer_runningServers_cases cfgS env st c with
      hc | ⟨cfgV, podN, hv, hlen, hdup, hc⟩
    · rw [hc]; exact h
    · rw [hc]
      unfold noDupNamedPairs at h ⊢
      apply pairwise_dictInsert _ _ _ h
      intro y hy
      by_cases ht : truthyStr cfgV.name = true
      · have hnmatch : sameTypeAndName cfgV y.2 = false := by
          have hm := List.find?_eq_none.mp (hdup ht) y.2 (List.mem_map_of_mem Prod.snd hy)
          simpa using hm
        constructor
        · rintro ⟨hty, hteq, hneq⟩
          have : sameTypeAndName cfgV y.2 = true := by
            simp only [trackedInfo] at hteq hneq
            simp [sameTypeAndName, hteq, hneq]
          rw [this] at hnmatch
          cases hnmatch
        · rintro ⟨hty, hteq, hneq⟩
          have : sameTypeAndName cfgV y.2 = true := by
            simp only [trackedInfo] at hteq hneq
            simp [sameTypeAndName, ← hteq, ← hneq]
          rw [this] at hnmatch
          cases hnmatch
      · constructor
        · rintro ⟨hty, hteq, hneq⟩
          rw [hneq] at hty
          simp only [trackedInfo] at hty
          exact ht hty
        · rintro ⟨hty, hteq, hneq⟩
          simp only [trackedInfo] at hty
          exact ht hty
  | stop env sid? =>
    cases sid? with
    | some sid =>
      show noDupNamedPairs (sidecarStopOne env st sid).1.runningServers
      rcases sidecarStopOne_runningServers_cases env st sid with hc | hc
      · rw [hc]; exact h
      · rw [hc]
        exact List.Pairwise.sublist (List.filter_sublist _) h
    | none =>
      show noDupNamedPairs (sidecarStopAll env st).1.runningServers
      rw [sidecarStopAll_clears]
      exact List.Pairwise.nil
  | statusQuery env =>
    show noDupNamedPairs (sidecarRefresh env st).runningServers
    unfold sidecarRefresh noDupNamedPairs
    dsimp only
    rw [List.pairwise_map]
    unfold noDupNamedPairs at h
    refine h.imp ?_
    intro a b hab hviol
    apply hab
    rcases hviol with ⟨hty, hteq, hneq⟩
    rw [(refreshInfo_fields env.pods a.2).1] at hty
    rw [(refreshInfo_fields env.pods a.2).2, (refreshInfo_fields env.pods b.2).2] at hteq
    rw [(refreshInfo_fields env.pods a.2).1, (refreshInfo_fields env.pods b.2).1] at hneq
    exact ⟨hty, hteq, hneq⟩

/-- Helper: a start answered with success=true passed validation and
returned the generated server id. -/
theorem sidecarStartServer_success_id (cfgS : SidecarCfgM) (env : SidecarEnv)
    (st st' : SidecarState) (c : Option SCfg) (r : MCPResponse)
    (h : sidecarStartServer cfgS env st c = (st', r)) (hs : r.success = true) :
    ∃ cfgV, validateConfig (c.getD {}) = .ok cfgV ∧
      r.server_id = some (serverIdString cfgV env.nowId) := by
  unfold sidecarStartServer at h
  split at h
  · simp only [Prod.mk.injEq] at h
    rw [← h.2] at hs
    exact Bool.noConfusion hs
  · rename_i cfgV hv
    split at h
    · simp only [Prod.mk.injEq] at h
      rw [← h.2] at hs
      exact Bool.noConfusion hs
    · split at h
      · simp only [Prod.mk.injEq] at h
        rw [← h.2] at hs
        exact Bool.noConfusion hs
      · split at h
        · simp only [Prod.mk.injEq] at h
          rw [← h.2] at hs
          exact Bool.noConfusion hs
        · simp only [Prod.mk.injEq] at h
          rw [← h.2] at hs
          exact Bool.noConfusion hs
        · refine ⟨cfgV, hv, ?_⟩
          unfold sidecarStartTrack at h
          dsimp only at h
          simp only [Prod.mk.injEq] at h
          rw [← h.2]

/-- C3, amended: a start call below the concurrency limit whose validated
config carries a truthy name matching a tracked instance (whatever its
status, Running included) is rejected with status running and the first
server_id of the first matching instance, leaving the state untouched; consequently
no two tracked instances of any history share the same (server_type, name)
with a truthy name.  With an unset name the duplicate check is skipped, as
the C3 counterexample shows. -/
theorem duplicate_name_spec :
    (∀ (cfgS : SidecarCfgM) (env : SidecarEnv) (st : SidecarState) (c : Option SCfg)
       (cfgV : SCfg) (ex : ServerInfo),
        validateConfig (c.getD {}) = .ok cfgV →
        st.runningServers.length < cfgS.maxConcurrentServers →
        truthyStr cfgV.name = true →
        (st.runningServers.map Prod.snd).find? (sameTypeAndName cfgV) = some ex →
        sidecarStartServer cfgS env st c =
          (st, { success := false, status := some "running"
                 message := "Server " ++ cfgV.server_type ++ ":" ++ pyStrOpt cfgV.name
                              ++ " is already running"
                 server_id := some ex.server_id
                 timestamp := env.utcNow })) ∧
    (∀ (cfgS : SidecarCfgM) (ops : List SidecarOp),
        noDupNamedPairs (sidecarRun cfgS initSidecarState ops).runningServers) := by
  constructor
  · intro cfgS env st c cfgV ex hv hlen htruthy hfind
    unfold sidecarStartServer
    split
    · rename_i e heq
      rw [hv] at heq
      exact Except.noConfusion heq
    · rename_i cfgV2 heq
      rw [hv] at heq
      injection heq with heq2
      subst heq2
      split
      · rename_i hge
        exact absurd hge (not_le.mpr hlen)
      · first
          | rw [if_pos htruthy, hfind]
          | rw [hfind]
  · intro cfgS ops
    have key : ∀ (l : List SidecarOp) (st : SidecarState), noDupNamedPairs st.runningServers →
        noDupNamedPairs (sidecarRun cfgS st l).runningServers := by
      intro l
      induction l with
      | nil => exact fun st h => h
      | cons op rest ih => exact fun st h => ih _ (sidecarStep_noDup cfgS st op h)
    exact key ops initSidecarState List.Pairwise.nil

/-- C3 witness: with the named python instance tracked, issuing the same
start again is rejected with status running and the existing server id. -/
theorem duplicate_name_spec_witness :
    sidecarStartServer {} envT100b stNamedA (some cfgNamedA) =
      (stNamedA, { success := false, status := some "running"
                   message := "Server " ++ cfgNamedA.server_type ++ ":"
                                ++ pyStrOpt cfgNamedA.name ++ " is already running"
                   server_id := some infoNamedA.server_id
                   timestamp := envT100b.utcNow }) :=
  duplicate_name_spec.1 {} envT100b stNamedA (some cfgNamedA) cfgNamedA infoNamedA
    rfl (by decide) rfl rfl

/-- C3 counterexample: the duplicate check is skipped when the config has
no name.  After an unnamed python start is observed Running, the same
unnamed start succeeds instead of failing with status running, and the
subsequent reconciliation shows two tracked instances with the same
(server_type, name) both Running. -/
theorem duplicate_name_unnamed_cex :
    ((sidecarRun {} initSidecarState historyUnnamedRunning).runningServers.map
        (fun p => (p.2.server_type, p.2.name, p.2.status))) =
      [("python", none, "Running")] ∧
    (sidecarStartServer {} envT101 (sidecarRun {} initSidecarState historyUnnamedRunning)
        (some cfgUnnamed)).2.success = true ∧
    ((sidecarRun {} initSidecarState historyUnnamedTwice).runningServers.map
        (fun p => (p.2.server_type, p.2.name, p.2.status))) =
      [("python", none, "Running"), ("python", none, "Running")] :=
  ⟨rfl, rfl, rfl⟩

/-- C7, amended: in every execution history the tracked-server count stays
within max_concurrent_servers (default 10), and a start call that passes
config validation while the tracked set is at or above the limit returns
success=false, status error and the Maximum-concurrent-servers message,
leaving the state untouched; an invalid config at the limit instead
returns the validation error, as the C7 counterexample shows. -/
theorem concurrency_cap_spec :
    (∀ (cfgS : SidecarCfgM) (ops : List SidecarOp),
        (sidecarRun cfgS initSidecarState ops).runningServers.length ≤
          cfgS.maxConcurrentServers) ∧
    ({} : SidecarCfgM).maxConcurrentServers = 10 ∧
    (∀ (cfgS : SidecarCfgM) (env : SidecarEnv) (st : SidecarState) (c : Option SCfg)
       (cfgV : SCfg),
        validateConfig (c.getD {}) = .ok cfgV →
        st.runningServers.length ≥ cfgS.maxConcurrentServers →
        sidecarStartServer cfgS env st c =
          (st, { success := false, status := some "error"
                 message := "Maximum concurrent servers ("
                              ++ toString cfgS.maxConcurrentServers ++ ") reached"
                 timestamp := env.utcNow })) ∧
    (∀ n : Nat, "Maximum concurrent servers".data <:+:
        ("Maximum concurrent servers (" ++ toString n ++ ") reached").data) := by
  refine ⟨?_, rfl, ?_, ?_⟩
  · intro cfgS ops
    have key : ∀ (l : List SidecarOp) (st : SidecarState),
        st.runningServers.length ≤ cfgS.maxConcurrentServers →
        (sidecarRun cfgS st l).runningServers.length ≤ cfgS.maxConcurrentServers := by
      intro l
      induction l with
      | nil => exact fun st h => h
      | cons op rest ih => exact fun st h => ih _ (sidecarStep_length_le cfgS st op h)
    exact key ops initSidecarState (Nat.zero_le _)
  · intro cfgS env st c cfgV hv hge
    unfold sidecarStartServer
    split
    · rename_i e heq
      rw [hv] at heq
      exact Except.noConfusion heq
    · rename_i cfgV2 heq
      rw [hv] at heq
      injection heq with heq2
      subst heq2
      rw [if_pos hge]
  · intro n
    refine ⟨[], (" (" ++ toString n ++ ") reached").data, ?_⟩
    have hsplit : ("Maximum concurrent servers (" : String).data =
        ("Maximum concurrent servers" : String).data ++ (" (" : String).data := by decide
    simp [String.data_append, hsplit]

set_option maxRecDepth 8000 in
/-- C7 witness: with the limit configured at one and one tracked server, a
further valid start is rejected with the Maximum-concurrent-servers
message, and the pattern Maximum concurrent servers occurs in the message
for the default limit 10. -/
theorem concurrency_cap_spec_witness :
    sidecarStartServer cfgSLimit1 envT101 stNamedA (some cfgNamedB) =
      (stNamedA, { success := false, status := some "error"
                   message := "Maximum concurrent servers ("
                                ++ toString cfgSLimit1.maxConcurrentServers ++ ") reached"
                   timestamp := envT101.utcNow }) ∧
    "Maximum concurrent servers".data <:+:
      ("Maximum concurrent servers (" ++ toString 10 ++ ") reached").data :=
  ⟨concurrency_cap_spec.2.2.1 cfgSLimit1 envT101 stNamedA (some cfgNamedB) cfgNamedB
     rfl (by decide),
   concurrency_cap_spec.2.2.2 10⟩

set_option maxRecDepth 8000 in
/-- C7 counterexample: a start call at the limit with an invalid config
(server_type bogus) returns success=false and status error, but its
message is the validation error and does not contain the text Maximum
concurrent servers, contradicting the claimed at-limit behavior. -/
theorem concurrency_cap_invalid_config_cex :
    stNamedA.runningServers.length = cfgSLimit1.maxConcurrentServers ∧
    (sidecarStartServer cfgSLimit1 envT101 stNamedA (some cfgBogus)).2.success = false ∧
    (sidecarStartServer cfgSLimit1 envT101 stNamedA (some cfgBogus)).2.status = some "error" ∧
    (sidecarStartServer cfgSLimit1 envT101 stNamedA (some cfgBogus)).2.message =
      "Invalid server configuration: server_type must be one of: archon, npx, uv, python, docker" ∧
    ¬("Maximum concurrent servers".data <:+:
        (sidecarStartServer cfgSLimit1 envT101 stNamedA (some cfgBogus)).2.message.data) :=
  ⟨rfl, rfl, rfl, rfl, by decide⟩

/-- C8, amended: every server id a successful start returns has the form
server_type-(name or default)-unix_seconds, but such ids are not unique
within the process: two successful starts agreeing on server_type, on
name-or-default and on the truncated unix second return the same id (the
second tracking record overwrites the first, as the C8 counterexample
shows). -/
theorem server_id_format_spec :
    (∀ (cfgS : SidecarCfgM) (env : SidecarEnv) (st st' : SidecarState) (c : Option SCfg)
       (r : MCPResponse),
        sidecarStartServer cfgS env st c = (st', r) → r.success = true →
        ∃ cfgV, validateConfig (c.getD {}) = .ok cfgV ∧
          r.server_id = some (serverIdString cfgV env.nowId)) ∧
    (∀ (cfgS1 cfgS2 : SidecarCfgM) (env1 env2 : SidecarEnv) (st1 st2 st1' st2' : SidecarState)
       (c1 c2 : Option SCfg) (r1 r2 : MCPResponse) (cfgV1 cfgV2 : SCfg),
        sidecarStartServer cfgS1 env1 st1 c1 = (st1', r1) → r1.success = true →
        sidecarStartServer cfgS2 env2 st2 c2 = (st2', r2) → r2.success = true →
        validateConfig (c1.getD {}) = .ok cfgV1 →
        validateConfig (c2.getD {}) = .ok cfgV2 →
        cfgV1.server_type = cfgV2.server_type →
        pyOrStr cfgV1.name "default" = pyOrStr cfgV2.name "default" →
        env1.nowId = env2.nowId →
        r1.server_id = r2.server_id) := by
  refine ⟨fun cfgS env st st' c r h hs => sidecarStartServer_success_id cfgS env st st' c r h hs,
          ?_⟩
  intro cfgS1 cfgS2 env1 env2 st1 st2 st1' st2' c1 c2 r1 r2 cfgV1 cfgV2
    h1 hs1 h2 hs2 hv1 hv2 htype hname hnow
  obtain ⟨cfgW1, hvW1, hid1⟩ := sidecarStartServer_success_id cfgS1 env1 st1 st1' c1 r1 h1 hs1
  obtain ⟨cfgW2, hvW2, hid2⟩ := sidecarStartServer_success_id cfgS2 env2 st2 st2' c2 r2 h2 hs2
  rw [hv1] at hvW1
  rw [hv2] at hvW2
  injection hvW1 with e1
  injection hvW2 with e2
  subst e1
  subst e2
  rw [hid1, hid2]
  unfold serverIdString
  rw [htype, hname, hnow]

/-- C8 witness: a concrete successful unnamed start returns the id built
from its validated config and the unix second of the call. -/
theorem server_id_format_spec_witness :
    ∃ cfgV, validateConfig ((some cfgUnnamed).getD {}) = .ok cfgV ∧
      (sidecarStartServer {} envT100 initSidecarState (some cfgUnnamed)).2.server_id =
        some (serverIdString cfgV envT100.nowId) :=
  server_id_format_spec.1 {} envT100 initSidecarState
    (sidecarStartServer {} envT100 initSidecarState (some cfgUnnamed)).1 (some cfgUnnamed)
    (sidecarStartServer {} envT100 initSidecarState (some cfgUnnamed)).2 rfl rfl

/-- C8 counterexample: two successful unnamed python starts within the
same unix second both return the id python-default-100, and the second
overwrites the first in the tracking dict, so allocated server ids are
not distinct within the process. -/
theorem server_id_collision_cex :
    (sidecarStartServer {} envT100 initSidecarState (some cfgUnnamed)).2.success = true ∧
    (sidecarStartServer {} envT100b
        (sidecarStartServer {} envT100 initSidecarState (some cfgUnnamed)).1
        (some cfgUnnamed)).2.success = true ∧
    (sidecarStartServer {} envT100 initSidecarState (some cfgUnnamed)).2.server_id =
      some "python-default-100" ∧
    (sidecarStartServer {} envT100b
        (sidecarStartServer {} envT100 initSidecarState (some cfgUnnamed)).1
        (some cfgUnnamed)).2.server_id = some "python-default-100" ∧
    (sidecarStartServer {} envT100b
        (sidecarStartServer {} envT100 initSidecarState (some cfgUnnamed)).1
        (some cfgUnnamed)).1.runningServers.length = 1 :=
  ⟨rfl, rfl, rfl, rfl, rfl⟩

/-- C9: when the pod-creation POST raises, start_server returns
success=false with no server_id, and the supervisor state is untouched:
running_servers, the global status and start_time are exactly what they
were (only the log deque gains an error entry). -/
theorem start_atomic_on_backend_failure (cfgS : SidecarCfgM) (env : SidecarEnv)
    (st : SidecarState) (c : Option SCfg) (cfgV : SCfg) (e : KubeErr)
    (hv : validateConfig (c.getD {}) = .ok cfgV)
    (hlen : st.runningServers.length < cfgS.maxConcurrentServers)
    (hdup : truthyStr cfgV.name = true →
      (st.runningServers.map Prod.snd).find? (sameTypeAndName cfgV) = none)
    (he : env.createPod = .error e) :
    (sidecarStartServer cfgS env st c).2.success = false ∧
    (sidecarStartServer cfgS env st c).1.runningServers = st.runningServers ∧
    (sidecarStartServer cfgS env st c).2.server_id = none ∧
    (sidecarStartServer cfgS env st c).1.status = st.status ∧
    (sidecarStartServer cfgS env st c).1.startTime = st.startTime := by
  unfold sidecarStartServer
  split
  · rename_i e2 heq
    rw [hv] at heq
    exact Except.noConfusion heq
  · rename_i cfgV2 heq
    rw [hv] at heq
    injection heq with heq2
    subst heq2
    split
    · rename_i hge
      exact absurd hge (not_le.mpr hlen)
    · have hex : (if truthyStr cfgV.name = true then
          (st.runningServers.map Prod.snd).find? (sameTypeAndName cfgV) else none) = none := by
        by_cases ht : truthyStr cfgV.name = true
        · rw [if_pos ht]
          exact hdup ht
        · rw [if_neg ht]
      rw [hex, he]
      cases e <;> exact ⟨rfl, rfl, rfl, rfl, rfl⟩

/-- C9 witness: at a concrete start whose POST raises, the call fails, no
id is exposed and the tracked set is unchanged. -/
theorem start_atomic_on_backend_failure_witness :
    (sidecarStartServer {} envCreateFail initSidecarState (some cfgNamedA)).2.success = false ∧
    (sidecarStartServer {} envCreateFail initSidecarState (some cfgNamedA)).1.runningServers =
      initSidecarState.runningServers ∧
    (sidecarStartServer {} envCreateFail initSidecarState (some cfgNamedA)).2.server_id = none :=
  ⟨(start_atomic_on_backend_failure {} envCreateFail initSidecarState (some cfgNamedA)
      cfgNamedA (.other "boom") rfl (by decide) (fun _ => rfl) rfl).1,
   (start_atomic_on_backend_failure {} envCreateFail initSidecarState (some cfgNamedA)
      cfgNamedA (.other "boom") rfl (by decide) (fun _ => rfl) rfl).2.1,
   (start_atomic_on_backend_failure {} envCreateFail initSidecarState (some cfgNamedA)
      cfgNamedA (.other "boom") rfl (by decide) (fun _ => rfl) rfl).2.2.1⟩
